import Mathlib

/-!
Shallow embedding of the tg-spam appeals bot (src/appeals_bot) in Lean 4.

Modules embedded:
* `utils.py`   — `validate_appeal_text`, `format_user_mention`, the historical
  `UnbanService` with the tg-spam primary API and the direct Telegram API;
* `database.py` — the `appeals` table and `DatabaseManager` operations,
  modelled as a pure state (`DB`) with explicit state passing; SQLite
  timestamps are modelled as natural numbers, `AutoField` ids as integers
  handed out from a `nextId` counter;
* `services.py` — the live `UnbanService.unban_user` over the PTB API;
* `handlers.py` — `_handle_appeal_submission`, `approve_command`,
  `reject_command`, `info_command`, `pending_command`, `stats_command`,
  `_notify_user_decision` and the formatting helpers, modelled as pure
  functions from the inbound update, the store state and the outcomes of the
  external calls (membership check, gateway call, notification delivery) to
  the new store state plus the messages sent.

Python strings subjected to `len`/`strip` are modelled as lists of code
points (`PyStr`), so `len` is list length and `strip` removes ASCII
whitespace from both ends, as CPython does for these inputs.
-/

namespace AppealsBot

/-- Python text (a sequence of code points). -/
abbrev PyStr := List Char

/-- The characters `str.strip()` removes (Python's ASCII whitespace). -/
def isPySpace (c : Char) : Bool :=
  c = ' ' || c = '\t' || c = '\n' || c = '\r' || c = '\x0b' || c = '\x0c'

/-- `text.strip()`: drop whitespace from both ends. -/
def pyStrip (s : PyStr) : PyStr :=
  ((s.dropWhile isPySpace).reverse.dropWhile isPySpace).reverse

/-- `utils.validate_appeal_text`: empty/whitespace-only check, then trimmed
minimum length, then raw maximum length; first failing rule's message. -/
def validate_appeal_text (text : PyStr) : Bool × Option String :=
  if (pyStrip text).isEmpty then
    (false, some "Appeal text cannot be empty")
  else if (pyStrip text).length < 10 then
    (false, some "Appeal text must be at least 10 characters long")
  else if text.length > 1000 then
    (false, some "Appeal text must be less than 1000 characters")
  else
    (true, none)

/-- `utils.format_user_mention`: `first_name or "Unknown"`, with the
`@username` suffix when the username is truthy (Python treats `None` and the
empty string as falsy). -/
def format_user_mention (first_name : Option String) (username : Option String) : String :=
  let name := match first_name with
    | some n => if n = "" then "Unknown" else n
    | none => "Unknown"
  match username with
  | some u => if u = "" then name else name ++ " (@" ++ u ++ ")"
  | none => name

/-! ## The appeal store (`database.py`) -/

/-- One row of the `appeals` table (`database.Appeal`). -/
structure Appeal where
  id : Int
  user_id : Int
  username : Option String
  first_name : Option String
  appeal_text : PyStr
  original_message : Option String
  status : String
  admin_decision : Option String
  created_at : Nat
  processed_at : Option Nat
deriving DecidableEq, Repr

/-- The store state: the rows of the `appeals` table in insertion (rowid)
order, plus the next value of the `AutoField` id sequence. -/
structure DB where
  rows : List Appeal
  nextId : Int
deriving DecidableEq, Repr

/-- A fresh SQLite database: no rows, ids start at 1. -/
def DB.empty : DB := { rows := [], nextId := 1 }

/-- The dict passed to `DatabaseManager.create_appeal` by the submit handler. -/
structure AppealData where
  user_id : Int
  username : Option String
  first_name : Option String
  appeal_text : PyStr
deriving DecidableEq, Repr

/-- `DatabaseManager.create_appeal`: insert a row with `status = "pending"`,
`created_at = now` and the remaining defaults, returning the new id. -/
def create_appeal (db : DB) (d : AppealData) (now : Nat) : Int × DB :=
  let a : Appeal :=
    { id := db.nextId
      user_id := d.user_id
      username := d.username
      first_name := d.first_name
      appeal_text := d.appeal_text
      original_message := none
      status := "pending"
      admin_decision := none
      created_at := now
      processed_at := none }
  (db.nextId, { rows := db.rows ++ [a], nextId := db.nextId + 1 })

/-- `DatabaseManager.get_appeal`: point lookup by primary key
(`Appeal.get_by_id`, `None` on `DoesNotExist`). -/
def get_appeal (db : DB) (appeal_id : Int) : Option Appeal :=
  db.rows.find? (fun a => a.id == appeal_id)

/-- The WHERE predicate of `get_pending_appeal`. -/
def pendingFor (user_id : Int) (a : Appeal) : Bool :=
  a.user_id == user_id && a.status == "pending"

/-- Selection step of `ORDER BY created_at DESC ... .get()`: keep the row
with the latest `created_at` seen so far. -/
def pickLatest (best : Option Appeal) (a : Appeal) : Option Appeal :=
  match best with
  | none => some a
  | some b => if b.created_at < a.created_at then some a else some b

/-- `DatabaseManager.get_pending_appeal`: the pending row of the user with
the latest `created_at` (`ORDER BY created_at DESC` then `.get()`), `None`
when there is none. -/
def get_pending_appeal (db : DB) (user_id : Int) : Option Appeal :=
  (db.rows.filter (pendingFor user_id)).foldl pickLatest none

/-- Insertion step of `ORDER BY created_at ASC` (a sort on the timestamp). -/
def insertByCreatedAsc (a : Appeal) : List Appeal → List Appeal
  | [] => [a]
  | b :: l => if a.created_at ≤ b.created_at then a :: b :: l else b :: insertByCreatedAsc a l

/-- `ORDER BY created_at ASC` over a row list. -/
def sortByCreatedAsc (l : List Appeal) : List Appeal :=
  l.foldr insertByCreatedAsc []

/-- `DatabaseManager.get_pending_appeals`: all pending rows, oldest first. -/
def get_pending_appeals (db : DB) : List Appeal :=
  sortByCreatedAsc (db.rows.filter (fun a => a.status == "pending"))

/-- `DatabaseManager.update_appeal_status`: one UPDATE setting `status`,
`admin_decision` and `processed_at` together on the rows whose id matches
(the WHERE clause does not look at the prior status); returns whether
`rows_updated > 0`. -/
def update_appeal_status (db : DB) (appeal_id : Int) (status : String)
    (admin_decision : String) (now : Nat) : Bool × DB :=
  let rows_updated := db.rows.countP (fun a => a.id == appeal_id)
  let rows := db.rows.map (fun a =>
    if a.id == appeal_id then
      { a with status := status, admin_decision := some admin_decision, processed_at := some now }
    else a)
  (decide (0 < rows_updated), { db with rows := rows })

/-- One per-status count of `get_appeals_stats` (`GROUP BY status`). -/
def countStatus (db : DB) (s : String) : Nat :=
  db.rows.countP (fun a => a.status == s)

/-- The distinct statuses present in the table (`GROUP BY status` keys). -/
def statsStatuses (db : DB) : List String :=
  (db.rows.map (fun a => a.status)).dedup

/-- `DatabaseManager.get_appeals_stats`: the per-status counts plus the
total row count. -/
def get_appeals_stats (db : DB) : List (String × Nat) × Nat :=
  ((statsStatuses db).map (fun s => (s, countStatus db s)), db.rows.length)

/-- `DatabaseManager.get_user_appeals`: all rows of a user, newest first
(`ORDER BY created_at DESC`). -/
def get_user_appeals (db : DB) (user_id : Int) : List Appeal :=
  (sortByCreatedAsc (db.rows.filter (fun a => a.user_id == user_id))).reverse

/-! ## Unban gateways (`services.py` and the historical `utils.py` version) -/

/-- The Bot-API style outcome dict: `ok` plus the optional `description`
and `error` keys the code reads. -/
structure UnbanOutcome where
  ok : Bool
  description : Option String
  error : Option String
deriving DecidableEq, Repr

/-- Behaviour of the awaited PTB `bot.unban_chat_member` call: it either
returns a boolean or raises. -/
inductive PTBCall where
  | returns (b : Bool)
  | raises (e : String)
deriving DecidableEq, Repr

/-- `services.UnbanService.unban_user`: wrap the PTB call; `True` maps to
`{ok: True}`, `False` to a failure with a description, an exception to a
failure with the error string. -/
def services_unban_user (call : PTBCall) : UnbanOutcome :=
  match call with
  | .returns true => { ok := true, description := none, error := none }
  | .returns false =>
      { ok := false, description := some "unban_chat_member returned False", error := none }
  | .raises e => { ok := false, description := none, error := some e }

/-- Which external endpoint an HTTP POST of `utils.py` hits. -/
inductive Endpoint where
  | tgSpam
  | telegramDirect
deriving DecidableEq, Repr

/-- Behaviour of one `requests.post(...).json()` round trip: a response
dict, a `requests.RequestException`, or another exception (e.g. a JSON
decoding error) that escapes the inner handler. -/
inductive ApiCall where
  | result (r : UnbanOutcome)
  | requestError (e : String)
  | otherError (e : String)
deriving DecidableEq, Repr

/-- `utils.TgSpamAPI.unban_user`: POST `/unban`; a `RequestException` is
caught and turned into `{ok: False, error: ...}`; other exceptions
propagate. -/
def tg_spam_api_unban_user (call : ApiCall) : Except String UnbanOutcome :=
  match call with
  | .result r => .ok r
  | .requestError e => .ok { ok := false, description := none, error := some e }
  | .otherError e => .error e

/-- `utils.TelegramAPI.unban_chat_member`: POST `/unbanChatMember`; same
exception discipline as `tg_spam_api_unban_user`. -/
def telegram_api_unban_chat_member (call : ApiCall) : Except String UnbanOutcome :=
  match call with
  | .result r => .ok r
  | .requestError e => .ok { ok := false, description := none, error := some e }
  | .otherError e => .error e

/-- `utils.UnbanService.unban_user`: with `use_tg_spam_api` enabled, call
the tg-spam API and return its result only when it is `ok` (a failure or an
exception is logged and the function falls off the end, i.e. returns
`None`); with it disabled, call the direct Telegram API and return its
result, turning an escaped exception into `{ok: False, error: ...}`.
Returns the outcome (`none` = Python `None`) and the list of endpoints
actually called. -/
def utils_unban_user (use_tg_spam_api : Bool) (tgSpamCall : ApiCall)
    (telegramCall : ApiCall) : Option UnbanOutcome × List Endpoint :=
  if use_tg_spam_api then
    match tg_spam_api_unban_user tgSpamCall with
    | .ok r => if r.ok then (some r, [.tgSpam]) else (none, [.tgSpam])
    | .error _ => (none, [.tgSpam])
  else
    match telegram_api_unban_chat_member telegramCall with
    | .ok r => (some r, [.telegramDirect])
    | .error e =>
        (some { ok := false, description := none, error := some e }, [.telegramDirect])

/-! ## Command handlers (`handlers.py`) -/

/-- Rendering of a Python `Optional[str]` inside an f-string (`None` prints
as `"None"`). -/
def pyOptStr : Option String → String
  | some s => s
  | none => "None"

/-- `format_datetime` is imported by `handlers.py` but missing from
`utils.py`; the timestamp rendering is modelled abstractly as the decimal
form of the model timestamp. -/
def format_datetime (t : Nat) : String := toString t

/-- Python `s.split(sep, 1)[1]` guarded by `sep in s`: the part after the
first separator occurrence, `none` when the separator does not occur. -/
def py_split_first_rest (s sep : String) : Option String :=
  match s.splitOn sep with
  | [] => none
  | [_] => none
  | _ :: rest => some (String.intercalate sep rest)

/-- Decimal-digit run of Python `int()`: all characters must be digits. -/
def py_digits (s : PyStr) : Option Nat :=
  if s.isEmpty then none
  else if s.all (fun c => 48 ≤ c.toNat && c.toNat ≤ 57) then
    some (s.foldl (fun n c => n * 10 + (c.toNat - 48)) 0)
  else none

/-- Python `int(arg)` on a command argument: optional sign followed by
decimal digits; a `ValueError` is `none`. -/
def py_int (s : PyStr) : Option Int :=
  match s with
  | '-' :: rest => (py_digits rest).map (fun n => -(n : Int))
  | '+' :: rest => (py_digits rest).map (fun n => (n : Int))
  | _ => (py_digits s).map (fun n => (n : Int))

/-- The sender of a message (`message.from_user` / `effective_user`). -/
structure UserInfo where
  id : Int
  username : Option String
  first_name : Option String
deriving DecidableEq, Repr

/-- `handlers._format_admin_notification`. -/
def format_admin_notification (appeal_id : Int) (appeal : Appeal) : String :=
  let user_mention := format_user_mention appeal.first_name appeal.username
  "\n🆕 **Новая апелляция** #" ++ toString appeal_id ++
  "\n\n👤 **Пользователь:** " ++ user_mention ++
  "\n🆔 **ID:** `" ++ toString appeal.user_id ++
  "`\n📝 **Апелляция:** " ++ String.mk appeal.appeal_text ++
  "\n\n**Действия:**\n• `/approve " ++ toString appeal_id ++
  "` - Разблокировать пользователя\n• `/reject " ++ toString appeal_id ++
  " [причина]` - Отклонить апелляцию\n• `/info " ++ toString appeal_id ++
  "` - Подробности\n    "

/-- `handlers._format_appeal_info`. -/
def format_appeal_info (appeal : Appeal) : String :=
  let user_mention := format_user_mention appeal.first_name appeal.username
  let info :=
    "\n📋 **Appeal #" ++ toString appeal.id ++
    "**\n\n👤 **User:** " ++ user_mention ++
    "\n🆔 **User ID:** `" ++ toString appeal.user_id ++
    "`\n📅 **Submitted:** " ++ format_datetime appeal.created_at ++
    " UTC\n📝 **Appeal Text:** " ++ String.mk appeal.appeal_text ++
    "\n🔄 **Status:** " ++ appeal.status ++ "\n    "
  let info := match appeal.admin_decision with
    | some d => info ++ "⚖️ **Admin Decision:** " ++ d ++ "\n"
    | none => info
  match appeal.processed_at with
  | some t => info ++ "✅ **Processed:** " ++ format_datetime t ++ "\n"
  | none => info

/-- `handlers._notify_user_decision`: build the decision message and send it
to the submitter; any exception of the send is caught and logged. Returns
the messages actually delivered (`deliveryOk` is whether the send
succeeded) and the exception escaping the helper (always `none`: the
`except` block swallows it). -/
def notify_user_decision (appeal : Appeal) (decision : String)
    (admin_decision : String) (deliveryOk : Bool) : List (Int × String) × Option String :=
  let message :=
    if decision == "approved" then
      "\n✅ Отличные новости! Ваша апелляция #" ++ toString appeal.id ++
      " была одобрена.\n\nТеперь вы можете присоединиться к группе F1News.ru. " ++
      "Пожалуйста, соблюдайте правила сообщества.\n            "
    else
      let reason := (py_split_first_rest admin_decision ": ").getD
        "Конкретная причина не указана"
      "\n❌ Ваша апелляция #" ++ toString appeal.id ++
      " была отклонена.\n\n**Причина:** " ++ reason ++
      "\n\nВы можете подать новую апелляцию, если у вас есть дополнительная информация.\n            "
  if deliveryOk then ([(appeal.user_id, message)], none) else ([], none)

/-- Result of a submit handler run: the new store state, the replies to the
submitter's chat, and the notices sent to the admin channel. -/
structure SubmitResult where
  db : DB
  replies : List String
  adminNotices : List String
deriving DecidableEq, Repr

/-- `handlers._handle_appeal_submission`: validation, then the membership
check (`member` is the outcome of `get_chat_member`: the member status, or
the exception raised), then the pending-appeal check, then the insert plus
the confirmation and admin notice. -/
def handle_appeal_submission (u : UserInfo) (text : PyStr)
    (member : Except String String) (db : DB) (now : Nat) : SubmitResult :=
  match validate_appeal_text text with
  | (false, error_msg) =>
      { db := db, replies := ["❌ " ++ pyOptStr error_msg], adminNotices := [] }
  | (true, _) =>
    match member with
    | .error _ =>
        { db := db
          replies := ["❌ Не удалось проверить ваш статус в группе. Попробуйте еще раз позже."]
          adminNotices := [] }
    | .ok st =>
      if st != "kicked" then
        { db := db
          replies := ["ℹ️ Вы не заблокированы в группе F1News.ru. Апелляции могут подавать только заблокированные пользователи."]
          adminNotices := [] }
      else
        match get_pending_appeal db u.id with
        | some existing =>
            { db := db
              replies := ["⏳ У вас уже есть незавершенная апелляция (#" ++ toString existing.id ++ "). Пожалуйста, дождитесь рассмотрения администратором."]
              adminNotices := [] }
        | none =>
          let c := create_appeal db ⟨u.id, u.username, u.first_name, text⟩ now
          let notices :=
            match get_appeal c.2 c.1 with
            | some ap => [format_admin_notification c.1 ap]
            | none => []
          { db := c.2
            replies := ["✅ Апелляция подана успешно!\nID апелляции: #" ++ toString c.1 ++ "\n\nАдминистраторы рассмотрят ваше дело в течение 24 часов."]
            adminNotices := notices }

/-- Result of an admin handler run: the new store state, the replies sent
to the invoking chat, the decision messages delivered to submitters, and
whether the unban gateway was invoked. -/
structure HandlerResult where
  db : DB
  replies : List String
  userMessages : List (Int × String)
  gatewayCalled : Bool
deriving DecidableEq, Repr

/-- `handlers.approve_command`: admin-channel guard (silently ignore
elsewhere), argument parsing, existence and pending checks, then the
gateway call (`unban_result` is its outcome); only on gateway success the
status update plus the success reply and the submitter notification; on
gateway failure the failure description reply. -/
def approve_command (admin_group_id chat_id : Int) (args : List String)
    (db : DB) (unban_result : UnbanOutcome) (now : Nat) (deliveryOk : Bool) : HandlerResult :=
  if chat_id != admin_group_id then ⟨db, [], [], false⟩
  else match args with
  | [] => ⟨db, ["❌ Укажите ID апелляции: `/approve 123`"], [], false⟩
  | arg0 :: _ =>
    match py_int arg0.data with
    | none => ⟨db, ["❌ Неверный ID апелляции."], [], false⟩
    | some appeal_id =>
      match get_appeal db appeal_id with
      | none => ⟨db, ["❌ Апелляция не найдена."], [], false⟩
      | some appeal =>
        if appeal.status != "pending" then
          ⟨db, ["❌ Апелляция #" ++ toString appeal_id ++ " уже " ++ appeal.status ++ "."], [], false⟩
        else if unban_result.ok then
          let admin_decision := "Одобрена"
          let upd := update_appeal_status db appeal_id "approved" admin_decision now
          if upd.1 then
            ⟨upd.2,
             ["✅ Апелляция #" ++ toString appeal_id ++ " одобрена. Пользователь " ++ pyOptStr appeal.first_name ++ " разблокирован."],
             (notify_user_decision appeal "approved" admin_decision deliveryOk).1,
             true⟩
          else
            ⟨upd.2, ["❌ Не удалось обновить статус апелляции."], [], true⟩
        else
          ⟨db, ["❌ Failed to unban user. Error: " ++ unban_result.description.getD "Unknown error"], [], true⟩

/-- `handlers.reject_command`: admin-channel guard, argument parsing with
the optional free-text reason (placeholder when omitted), existence and
pending checks, then the unconditional status update, reply and submitter
notification. -/
def reject_command (admin_group_id chat_id : Int) (args : List String)
    (db : DB) (now : Nat) (deliveryOk : Bool) : HandlerResult :=
  if chat_id != admin_group_id then ⟨db, [], [], false⟩
  else match args with
  | [] => ⟨db, ["❌ Укажите ID апелляции: `/reject 123 [причина]`"], [], false⟩
  | arg0 :: restArgs =>
    match py_int arg0.data with
    | none => ⟨db, ["❌ Неверный ID апелляции."], [], false⟩
    | some appeal_id =>
      let reason :=
        if restArgs.isEmpty then "Причина не указана"
        else String.intercalate " " restArgs
      match get_appeal db appeal_id with
      | none => ⟨db, ["❌ Апелляция не найдена."], [], false⟩
      | some appeal =>
        if appeal.status != "pending" then
          ⟨db, ["❌ Апелляция #" ++ toString appeal_id ++ " уже " ++ appeal.status ++ "."], [], false⟩
        else
          let admin_decision := "Отклонена: " ++ reason
          let upd := update_appeal_status db appeal_id "rejected" admin_decision now
          if upd.1 then
            ⟨upd.2,
             ["❌ Апелляция #" ++ toString appeal_id ++ " отклонена."],
             (notify_user_decision appeal "rejected" admin_decision deliveryOk).1,
             false⟩
          else
            ⟨upd.2, ["❌ Не удалось обновить статус апелляции."], [], false⟩

/-- `handlers.info_command`: admin-channel guard, argument parsing,
existence check, then the read-only appeal rendering. -/
def info_command (admin_group_id chat_id : Int) (args : List String)
    (db : DB) : HandlerResult :=
  if chat_id != admin_group_id then ⟨db, [], [], false⟩
  else match args with
  | [] => ⟨db, ["❌ Please provide appeal ID: `/info 123`"], [], false⟩
  | arg0 :: _ =>
    match py_int arg0.data with
    | none => ⟨db, ["❌ Неверный ID апелляции."], [], false⟩
    | some appeal_id =>
      match get_appeal db appeal_id with
      | none => ⟨db, ["❌ Апелляция не найдена."], [], false⟩
      | some appeal => ⟨db, [format_appeal_info appeal], [], false⟩

/-- `handlers.pending_command`: admin-channel guard, then the read-only
listing of pending appeals, oldest first. -/
def pending_command (admin_group_id chat_id : Int) (db : DB) : HandlerResult :=
  if chat_id != admin_group_id then ⟨db, [], [], false⟩
  else
    let pending := get_pending_appeals db
    if pending.isEmpty then ⟨db, ["✅ No pending appeals."], [], false⟩
    else
      let message := pending.foldl (fun m a =>
        m ++ "#" ++ toString a.id ++ " - " ++
        format_user_mention a.first_name a.username ++ " - " ++
        format_datetime a.created_at ++ "\n") "⏳ **Pending Appeals:**\n\n"
      ⟨db, [message], [], false⟩

/-- The emoji vocabulary of `stats_command`. -/
def status_emoji (s : String) : String :=
  if s == "pending" then "⏳" else if s == "approved" then "✅" else "❌"

/-- Python `str.title()` restricted to the status vocabulary. -/
def status_title (s : String) : String :=
  if s == "pending" then "Pending"
  else if s == "approved" then "Approved"
  else if s == "rejected" then "Rejected"
  else s

/-- `stats.get(key, 0)` over the per-status count list. -/
def statsGet (st : List (String × Nat)) (k : String) : Nat :=
  (((st.find? (fun p => p.1 == k)).map Prod.snd)).getD 0

/-- `handlers.stats_command`: admin-channel guard, then the statistics
message, listing each of the three statuses with a nonzero count. -/
def stats_command (admin_group_id chat_id : Int) (db : DB) : HandlerResult :=
  if chat_id != admin_group_id then ⟨db, [], [], false⟩
  else
    let stats := get_appeals_stats db
    let message :=
      "📊 **Appeals Statistics**\n\n**Total Appeals:** " ++ toString stats.2 ++ "\n\n"
    let message := ["pending", "approved", "rejected"].foldl (fun m s =>
      let count := statsGet stats.1 s
      if count > 0 then
        m ++ status_emoji s ++ " **" ++ status_title s ++ ":** " ++ toString count ++ "\n"
      else m) message
    ⟨db, [message], [], false⟩

/-! ## Invariants and helper lemmas -/

/-- At most one pending row per user (the data-model invariant of §3). -/
def pendingUnique (db : DB) : Prop :=
  ∀ uid : Int, db.rows.countP (pendingFor uid) ≤ 1

/-- Well-formedness of the id sequence: every stored id is below the next
`AutoField` value. -/
def WF (db : DB) : Prop :=
  ∀ a ∈ db.rows, a.id < db.nextId

theorem foldl_pickLatest_spec (l : List Appeal) (b : Appeal) :
    ∃ c, l.foldl pickLatest (some b) = some c ∧ (c = b ∨ c ∈ l) ∧
      b.created_at ≤ c.created_at ∧ ∀ x ∈ l, x.created_at ≤ c.created_at := by
  induction l generalizing b with
  | nil => exact ⟨b, rfl, Or.inl rfl, Nat.le_refl _, by simp⟩
  | cons a l ih =>
    by_cases hba : b.created_at < a.created_at
    · obtain ⟨c, hc, hmem, hle, hall⟩ := ih a
      refine ⟨c, ?_, ?_, ?_, ?_⟩
      · simpa [pickLatest, hba] using hc
      · rcases hmem with h | h
        · exact Or.inr (by simp [h])
        · exact Or.inr (by simp [h])
      · exact Nat.le_trans (Nat.le_of_lt hba) hle
      · intro x hx
        rcases List.mem_cons.1 hx with rfl | hx
        · exact hle
        · exact hall x hx
    · obtain ⟨c, hc, hmem, hle, hall⟩ := ih b
      refine ⟨c, ?_, Or.imp_right (List.mem_cons_of_mem a) hmem, hle, ?_⟩
      · simpa [pickLatest, hba] using hc
      · intro x hx
        rcases List.mem_cons.1 hx with rfl | hx
        · exact Nat.le_trans (Nat.le_of_not_lt hba) hle
        · exact hall x hx

theorem foldl_pickLatest_none_iff (l : List Appeal) :
    l.foldl pickLatest none = none ↔ l = [] := by
  cases l with
  | nil => simp
  | cons a l =>
    obtain ⟨c, hc, -, -, -⟩ := foldl_pickLatest_spec l a
    simp only [List.foldl_cons, pickLatest]
    rw [hc]
    simp

theorem get_pending_appeal_eq_none_iff (db : DB) (u : Int) :
    get_pending_appeal db u = none ↔ db.rows.countP (pendingFor u) = 0 := by
  unfold get_pending_appeal
  rw [foldl_pickLatest_none_iff, List.countP_eq_length_filter, List.length_eq_zero]

theorem get_pending_appeal_some_spec (db : DB) (u : Int) (a : Appeal)
    (h : get_pending_appeal db u = some a) :
    a ∈ db.rows ∧ pendingFor u a = true ∧
      ∀ x ∈ db.rows, pendingFor u x = true → x.created_at ≤ a.created_at := by
  unfold get_pending_appeal at h
  cases hf : db.rows.filter (pendingFor u) with
  | nil => rw [hf] at h; simp at h
  | cons y l =>
    rw [hf] at h
    simp only [List.foldl_cons, pickLatest] at h
    obtain ⟨c, hc, hmem, hle, hall⟩ := foldl_pickLatest_spec l y
    rw [hc] at h
    have hca : c = a := by injection h
    subst hca
    have hmemf : c ∈ db.rows.filter (pendingFor u) := by
      rw [hf]
      rcases hmem with h | h
      · rw [h]; exact List.mem_cons_self _ _
      · exact List.mem_cons_of_mem _ h
    have := List.mem_filter.1 hmemf
    refine ⟨this.1, this.2, ?_⟩
    intro x hx hpx
    have hxf : x ∈ db.rows.filter (pendingFor u) := List.mem_filter.2 ⟨hx, hpx⟩
    rw [hf] at hxf
    rcases List.mem_cons.1 hxf with rfl | hxf
    · exact hle
    · exact hall x hxf

theorem eq_of_countP_le_one {α : Type} {p : α → Bool} {l : List α}
    (h : l.countP p ≤ 1) {a b : α} (ha : a ∈ l) (hpa : p a = true)
    (hb : b ∈ l) (hpb : p b = true) : a = b := by
  have ha' : a ∈ l.filter p := List.mem_filter.2 ⟨ha, hpa⟩
  have hb' : b ∈ l.filter p := List.mem_filter.2 ⟨hb, hpb⟩
  rw [List.countP_eq_length_filter] at h
  cases hf : l.filter p with
  | nil => rw [hf] at ha'; simp at ha'
  | cons x xs =>
    rw [hf] at h ha' hb'
    have hxs : xs = [] := by
      cases xs with
      | nil => rfl
      | cons y ys => simp at h
    subst hxs
    simp only [List.mem_singleton] at ha' hb'
    rw [ha', hb']

theorem countP_map_le {α : Type} (p : α → Bool) (f : α → α) (l : List α)
    (h : ∀ a, p (f a) = true → p a = true) :
    (l.map f).countP p ≤ l.countP p := by
  rw [List.countP_map]
  exact List.countP_mono_left (fun x _ hx => h x hx)

theorem update_preserves_pendingUnique (db : DB) (i : Int) (s d : String)
    (now : Nat) (hs : s ≠ "pending") (h : pendingUnique db) :
    pendingUnique (update_appeal_status db i s d now).2 := by
  intro uid
  unfold update_appeal_status
  dsimp only
  refine Nat.le_trans (countP_map_le _ _ _ ?_) (h uid)
  intro a hpa
  by_cases hid : (a.id == i) = true
  · rw [if_pos hid] at hpa
    simp only [pendingFor, Bool.and_eq_true, beq_iff_eq] at hpa
    exact absurd hpa.2 hs
  · rw [if_neg hid] at hpa
    exact hpa

theorem submit_preserves_pendingUnique (u : UserInfo) (text : PyStr)
    (member : Except String String) (db : DB) (now : Nat) (h : pendingUnique db) :
    pendingUnique (handle_appeal_submission u text member db now).db := by
  unfold handle_appeal_submission
  split
  · exact h
  · split
    · exact h
    · split
      · exact h
      · split
        · exact h
        · next hnone =>
          dsimp only [create_appeal]
          intro uid
          simp only [List.countP_append, List.countP_cons, List.countP_nil]
          have h0 : db.rows.countP (pendingFor u.id) = 0 :=
            (get_pending_appeal_eq_none_iff db u.id).1 hnone
          by_cases huid : uid = u.id
          · subst huid
            rw [h0]
            simp [pendingFor]
          · have hne : (u.id == uid) = false := by
              rw [beq_eq_false_iff_ne]
              exact fun hh => huid hh.symm
            simp only [pendingFor, hne, Bool.false_and, Bool.false_eq_true,
              if_false, Nat.add_zero]
            exact h uid

theorem approve_preserves_pendingUnique (g c : Int) (args : List String)
    (db : DB) (gw : UnbanOutcome) (now : Nat) (ok : Bool) (h : pendingUnique db) :
    pendingUnique (approve_command g c args db gw now ok).db := by
  unfold approve_command
  repeat'
    first
    | exact h
    | exact update_preserves_pendingUnique db _ "approved" _ now (by decide) h
    | split
    | dsimp only

theorem reject_preserves_pendingUnique (g c : Int) (args : List String)
    (db : DB) (now : Nat) (ok : Bool) (h : pendingUnique db) :
    pendingUnique (reject_command g c args db now ok).db := by
  unfold reject_command
  repeat'
    first
    | exact h
    | exact update_preserves_pendingUnique db _ "rejected" _ now (by decide) h
    | split
    | dsimp only

/-- The stores reachable by the application: the fresh database, then any
sequence of submissions and admin decisions. -/
inductive Reachable : DB → Prop where
  | empty : Reachable DB.empty
  | submit (u : UserInfo) (text : PyStr) (member : Except String String)
      (now : Nat) {db : DB} : Reachable db →
      Reachable (handle_appeal_submission u text member db now).db
  | approve (g c : Int) (args : List String) (gw : UnbanOutcome) (now : Nat)
      (ok : Bool) {db : DB} : Reachable db →
      Reachable (approve_command g c args db gw now ok).db
  | reject (g c : Int) (args : List String) (now : Nat) (ok : Bool) {db : DB} :
      Reachable db → Reachable (reject_command g c args db now ok).db

theorem reachable_pendingUnique {db : DB} (h : Reachable db) : pendingUnique db := by
  induction h with
  | empty => intro uid; simp [DB.empty]
  | submit u text member now _ ih => exact submit_preserves_pendingUnique _ _ _ _ _ ih
  | approve g c args gw now ok _ ih => exact approve_preserves_pendingUnique _ _ _ _ _ _ _ ih
  | reject g c args now ok _ ih => exact reject_preserves_pendingUnique _ _ _ _ _ _ ih

/-! ## Concrete fixtures used by counterexamples and witnesses -/

/-- Appeal text whose trimmed length is 10 but whose raw length is 1001. -/
def cexText : PyStr := List.replicate 10 'a' ++ List.replicate 991 ' '

/-- An already-processed (approved) appeal row. -/
def procAp : Appeal :=
  { id := 1, user_id := 7, username := some "u", first_name := some "F",
    appeal_text := "0123456789".data, original_message := none,
    status := "approved", admin_decision := some "Одобрена",
    created_at := 3, processed_at := some 5 }

/-- A store holding only `procAp`. -/
def procDB : DB := { rows := [procAp], nextId := 2 }

/-- A pending appeal row of user 7. -/
def pAp : Appeal :=
  { id := 1, user_id := 7, username := some "u", first_name := some "F",
    appeal_text := "0123456789".data, original_message := none,
    status := "pending", admin_decision := none,
    created_at := 3, processed_at := none }

/-- A store holding only `pAp`. -/
def pDB : DB := { rows := [pAp], nextId := 2 }

/-- Concrete appeal data for round-trip witnesses. -/
def wData : AppealData :=
  { user_id := 7, username := some "u", first_name := some "F",
    appeal_text := "0123456789".data }

/-- A concrete submitter. -/
def wUser : UserInfo := { id := 7, username := some "u", first_name := some "F" }

/-- A concrete valid appeal text. -/
def wText : PyStr := "0123456789abc".data

/-! ## Claim C4 — validation rules -/

set_option maxRecDepth 100000

/-- C4 counterexample: the claim says every text whose trimmed length lies
in [10,1000] validates, but a text of 10 letters padded with 991 trailing
spaces has trimmed length 10 and is still rejected, because the maximum
length rule uses the untrimmed length. -/
theorem validate_trimmed_in_range_rejected :
    10 ≤ (pyStrip cexText).length ∧ (pyStrip cexText).length ≤ 1000 ∧
    (validate_appeal_text cexText).1 = false ∧
    (validate_appeal_text cexText).2 =
      some "Appeal text must be less than 1000 characters" := by
  decide

/-- C4 (amended): `validate_appeal_text` accepts exactly the texts whose
trimmed length is at least 10 and whose raw length is at most 1000; the
rules are applied in order (empty/whitespace-only, then trimmed length,
then raw length) and the first failing rule's non-empty message is
returned. -/
theorem validate_appeal_text_spec (text : PyStr) :
    ((validate_appeal_text text).1 = true ↔
      10 ≤ (pyStrip text).length ∧ text.length ≤ 1000) ∧
    ((pyStrip text).isEmpty = true →
      validate_appeal_text text = (false, some "Appeal text cannot be empty")) ∧
    ((pyStrip text).isEmpty = false → (pyStrip text).length < 10 →
      validate_appeal_text text =
        (false, some "Appeal text must be at least 10 characters long")) ∧
    (10 ≤ (pyStrip text).length → 1000 < text.length →
      validate_appeal_text text =
        (false, some "Appeal text must be less than 1000 characters")) ∧
    ((validate_appeal_text text).1 = false →
      ∃ m, (validate_appeal_text text).2 = some m ∧ m ≠ "") := by
  have hlen : (pyStrip text).isEmpty = true ↔ (pyStrip text).length = 0 :=
    List.isEmpty_iff_length_eq_zero
  by_cases h1 : (pyStrip text).isEmpty = true
  · have hv : validate_appeal_text text = (false, some "Appeal text cannot be empty") := by
      unfold validate_appeal_text
      rw [if_pos h1]
    have h0 : (pyStrip text).length = 0 := hlen.1 h1
    rw [hv]
    refine ⟨by simp [h0], fun _ => rfl, ?_, ?_, fun _ => ⟨_, rfl, by decide⟩⟩
    · intro h1' _
      rw [h1] at h1'
      cases h1'
    · intro h10 _
      exact absurd h10 (by omega)
  · by_cases h2 : (pyStrip text).length < 10
    · have hv : validate_appeal_text text =
          (false, some "Appeal text must be at least 10 characters long") := by
        unfold validate_appeal_text
        rw [if_neg h1, if_pos h2]
      rw [hv]
      refine ⟨by simp; intro h10; exact absurd h10 (by omega),
        fun h1' => absurd h1' h1, fun _ _ => rfl, ?_, fun _ => ⟨_, rfl, by decide⟩⟩
      intro h10 _
      exact absurd h10 (by omega)
    · by_cases h3 : text.length > 1000
      · have hv : validate_appeal_text text =
            (false, some "Appeal text must be less than 1000 characters") := by
          unfold validate_appeal_text
          rw [if_neg h1, if_neg h2, if_pos h3]
        rw [hv]
        refine ⟨by simp; intro _; omega,
          fun h1' => absurd h1' h1, fun _ h2' => absurd h2' h2, fun _ _ => rfl,
          fun _ => ⟨_, rfl, by decide⟩⟩
      · have hv : validate_appeal_text text = (true, none) := by
          unfold validate_appeal_text
          rw [if_neg h1, if_neg h2, if_neg h3]
        rw [hv]
        refine ⟨by simp; omega, fun h1' => absurd h1' h1,
          fun _ h2' => absurd h2' h2, fun _ h1000 => absurd h1000 h3, ?_⟩
        intro hfalse
        cases hfalse

/-- C4 witness: the amended theorem evaluated at a concrete too-short text. -/
theorem validate_appeal_text_spec_witness :
    (pyStrip "hi".data).isEmpty = false ∧ (pyStrip "hi".data).length < 10 ∧
    validate_appeal_text "hi".data =
      (false, some "Appeal text must be at least 10 characters long") :=
  ⟨by decide, by decide, (validate_appeal_text_spec "hi".data).2.2.1 (by decide) (by decide)⟩

/-! ## Claim C2 — update_status semantics -/

/-- C2 counterexample: updating an appeal that is already processed
(`procAp` is `approved` with `processed_at` set) returns `true` and mutates
the row, while the claim says it returns `false` and mutates nothing. -/
theorem update_processed_returns_true_and_mutates :
    procAp.processed_at = some 5 ∧ procAp.status = "approved" ∧
    (update_appeal_status procDB 1 "rejected" "spam" 9).1 = true ∧
    (update_appeal_status procDB 1 "rejected" "spam" 9).2 ≠ procDB := by
  decide

/-- C2 (amended): `update_appeal_status` returns `true` exactly when a row
with the given id exists (regardless of its prior status — callers must
pre-check the status); when it returns `false` the store is unchanged; any
affected row gets `status`, `admin_decision` and `processed_at` set
together, and rows with other ids are untouched. -/
theorem update_appeal_status_spec (db : DB) (i : Int) (s d : String) (now : Nat) :
    ((update_appeal_status db i s d now).1 = true ↔ ∃ a ∈ db.rows, a.id = i) ∧
    ((update_appeal_status db i s d now).1 = false →
      (update_appeal_status db i s d now).2 = db) ∧
    (∀ a ∈ db.rows, a.id = i →
      { a with status := s, admin_decision := some d, processed_at := some now } ∈
        (update_appeal_status db i s d now).2.rows) ∧
    (∀ a ∈ db.rows, a.id ≠ i → a ∈ (update_appeal_status db i s d now).2.rows) := by
  unfold update_appeal_status
  dsimp only
  refine ⟨?_, ?_, ?_, ?_⟩
  · rw [decide_eq_true_eq, List.countP_pos_iff]
    constructor
    · rintro ⟨a, ha, hpa⟩
      exact ⟨a, ha, by simpa using hpa⟩
    · rintro ⟨a, ha, hpa⟩
      exact ⟨a, ha, by simpa using hpa⟩
  · intro hfalse
    have h0 : db.rows.countP (fun a => a.id == i) = 0 :=
      Nat.eq_zero_of_not_pos (of_decide_eq_false hfalse)
    have hall := List.countP_eq_zero.1 h0
    have hmap : db.rows.map (fun a =>
        if a.id == i then
          { a with status := s, admin_decision := some d, processed_at := some now }
        else a) = db.rows := by
      rw [List.map_congr_left (g := id), List.map_id]
      intro a ha
      have hne := hall a ha
      simp only [Bool.not_eq_true] at hne
      simp [hne]
    rw [hmap]
  · intro a ha hid
    have : (a.id == i) = true := by simpa using hid
    refine List.mem_map.2 ⟨a, ha, ?_⟩
    simp [this]
  · intro a ha hid
    have : (a.id == i) = false := by simpa using hid
    refine List.mem_map.2 ⟨a, ha, ?_⟩
    simp [this]

/-- The row `procAp` after a forced second transition. -/
def procApRejected : Appeal :=
  { procAp with status := "rejected", admin_decision := some "spam", processed_at := some 9 }

/-- C2 witness: the amended theorem evaluated on `procDB`. -/
theorem update_appeal_status_spec_witness :
    (procAp ∈ procDB.rows ∧ procAp.id = 1) ∧
    (procApRejected ∈ (update_appeal_status procDB 1 "rejected" "spam" 9).2.rows) ∧
    (update_appeal_status procDB 5 "x" "y" 0).2 = procDB := by
  refine ⟨⟨by decide, by decide⟩, ?_, ?_⟩
  · exact (update_appeal_status_spec procDB 1 "rejected" "spam" 9).2.2.1 procAp
      (by decide) (by decide)
  · exact (update_appeal_status_spec procDB 5 "x" "y" 0).2.1 (by decide)

/-! ## Claim C5 — unban gateway outcome -/

/-- C5: in the `utils.py` unban service, with the primary tg-spam API
enabled (the configuration default) and the tg-spam API reporting a
failure, the operation calls exactly one endpoint but falls off the end of
the function and returns `None` — not a structured failure outcome —
contradicting the claim and the function's own docstring (which promises a
fallback to the direct Telegram API). -/
theorem utils_unban_primary_failure_returns_none :
    utils_unban_user true
      (.result { ok := false, description := some "user not banned", error := none })
      (.result { ok := true, description := none, error := none }) =
      (none, [Endpoint.tgSpam]) ∧
    (∀ c1 c2 : ApiCall, ∀ b : Bool, (utils_unban_user b c1 c2).2.length = 1) := by
  refine ⟨by decide, ?_⟩
  intro c1 c2 b
  unfold utils_unban_user
  cases b <;> cases c1 <;> cases c2 <;> simp [tg_spam_api_unban_user, telegram_api_unban_chat_member] <;> split <;> rfl

/-! ## Claim C9 — stats consistency -/

/-- C9: the total reported by `get_appeals_stats` always equals the sum of
its per-status counts, and every `create_appeal` increases the total by
exactly one. -/
theorem stats_total_consistent :
    (∀ db : DB, ((get_appeals_stats db).1.map Prod.snd).sum = (get_appeals_stats db).2) ∧
    (∀ (db : DB) (d : AppealData) (now : Nat),
      (get_appeals_stats (create_appeal db d now).2).2 = (get_appeals_stats db).2 + 1) := by
  constructor
  · intro db
    unfold get_appeals_stats statsStatuses countStatus
    dsimp only
    rw [List.map_map]
    have hc : ∀ s : String,
        db.rows.countP (fun a => a.status == s) =
          (db.rows.map (fun a => a.status)).count s := by
      intro s
      rw [List.count_eq_countP, List.countP_map]
      rfl
    calc ((db.rows.map (fun a => a.status)).dedup.map
            (Prod.snd ∘ fun s => (s, db.rows.countP (fun a => a.status == s)))).sum
        = ((db.rows.map (fun a => a.status)).dedup.map
            (fun s => (db.rows.map (fun a => a.status)).count s)).sum := by
          apply congrArg
          apply List.map_congr_left
          intro s _
          exact hc s
      _ = (db.rows.map (fun a => a.status)).length :=
          List.sum_map_count_dedup_eq_length _
      _ = db.rows.length := List.length_map _ _
  · intro db d now
    unfold get_appeals_stats create_appeal
    simp

/-! ## Claim C7 — create/get round trip -/

/-- C7: after `create_appeal`, `get_appeal` on the returned id yields a row
with status `pending`, no processed timestamp, no decision, the creation
timestamp, and every submitted field preserved verbatim (given that stored
ids are below the id counter, which holds for every store the application
builds). -/
theorem create_appeal_get_roundtrip (db : DB) (d : AppealData) (now : Nat)
    (hwf : WF db) :
    get_appeal (create_appeal db d now).2 (create_appeal db d now).1 =
      some { id := db.nextId, user_id := d.user_id, username := d.username,
             first_name := d.first_name, appeal_text := d.appeal_text,
             original_message := none, status := "pending",
             admin_decision := none, created_at := now, processed_at := none } := by
  unfold get_appeal create_appeal
  dsimp only
  rw [List.find?_append]
  have h1 : db.rows.find? (fun a => a.id == db.nextId) = none := by
    rw [List.find?_eq_none]
    intro x hx
    have hlt := hwf x hx
    simp only [beq_iff_eq]
    omega
  rw [h1]
  simp

/-- C7 witness: the round trip evaluated on the empty store. -/
theorem create_appeal_get_roundtrip_witness :
    WF DB.empty ∧
    get_appeal (create_appeal DB.empty wData 5).2 (create_appeal DB.empty wData 5).1 =
      some { id := 1, user_id := 7, username := some "u", first_name := some "F",
             appeal_text := "0123456789".data, original_message := none,
             status := "pending", admin_decision := none, created_at := 5,
             processed_at := none } := by
  refine ⟨?_, ?_⟩
  · intro a ha
    simp [DB.empty] at ha
  · exact create_appeal_get_roundtrip DB.empty wData 5 (fun a ha => by simp [DB.empty] at ha)

/-! ## Claim C8 — get_pending_for_user -/

/-- C8: `get_pending_appeal` returns absent exactly when the user has no
pending row; when it returns a row, that row is a pending row of the user
with the latest `created_at` among them; and once that row is transitioned
by `update_appeal_status` to a non-pending status, the lookup returns
absent (using the one-pending-per-user invariant). -/
theorem get_pending_for_user_spec (db : DB) (u : Int) :
    (get_pending_appeal db u = none ↔
      ∀ x ∈ db.rows, x.user_id = u → x.status ≠ "pending") ∧
    (∀ a, get_pending_appeal db u = some a →
      a ∈ db.rows ∧ a.user_id = u ∧ a.status = "pending" ∧
      ∀ x ∈ db.rows, x.user_id = u → x.status = "pending" →
        x.created_at ≤ a.created_at) ∧
    (∀ (a : Appeal) (s d : String) (now : Nat), pendingUnique db → s ≠ "pending" →
      get_pending_appeal db u = some a →
      get_pending_appeal (update_appeal_status db a.id s d now).2 u = none) := by
  refine ⟨?_, ?_, ?_⟩
  · rw [get_pending_appeal_eq_none_iff]
    rw [List.countP_eq_zero]
    constructor
    · intro h x hx hu hs
      have := h x hx
      simp [pendingFor, hu, hs] at this
    · intro h x hx
      simp only [pendingFor, Bool.and_eq_true, beq_iff_eq, not_and]
      intro hu hs
      exact h x hx hu hs
  · intro a ha
    obtain ⟨hmem, hpf, hmax⟩ := get_pending_appeal_some_spec db u a ha
    simp only [pendingFor, Bool.and_eq_true, beq_iff_eq] at hpf
    refine ⟨hmem, hpf.1, hpf.2, ?_⟩
    intro x hx hu hs
    exact hmax x hx (by simp [pendingFor, hu, hs])
  · intro a s d now hpu hs ha
    obtain ⟨hmem, hpf, -⟩ := get_pending_appeal_some_spec db u a ha
    rw [get_pending_appeal_eq_none_iff]
    unfold update_appeal_status
    dsimp only
    rw [List.countP_map]
    rw [List.countP_eq_zero]
    intro x hx
    simp only [Function.comp]
    by_cases hid : (x.id == a.id) = true
    · rw [if_pos hid]
      have hsne : (s == "pending") = false := by
        rw [beq_eq_false_iff_ne]
        exact hs
      simp [pendingFor, hsne]
    · rw [if_neg hid]
      intro hpx
      have : x = a := eq_of_countP_le_one (hpu u) hx hpx hmem hpf
      rw [this] at hid
      simp at hid

/-- C8 witness: the lookup and the transition evaluated on a one-row store. -/
theorem get_pending_for_user_spec_witness :
    get_pending_appeal pDB 7 = some pAp ∧
    get_pending_appeal (update_appeal_status pDB pAp.id "approved" "d" 9).2 7 = none := by
  constructor
  · decide
  · exact (get_pending_for_user_spec pDB 7).2.2 pAp "approved" "d" 9
      (fun uid => by
        have h := List.countP_le_length (p := pendingFor uid) (l := pDB.rows)
        simpa [pDB] using h)
      (by decide) (by decide)

/-! ## Claim C6 — admin commands are silent outside the admin channel -/

/-- C6: every admin-only handler invoked from a chat other than the
configured admin channel sends no reply, delivers no user message, leaves
the store untouched and never reaches the gateway. -/
theorem admin_commands_silent_outside_channel (g c : Int) (hne : c ≠ g) :
    (∀ (args : List String) (db : DB) (gw : UnbanOutcome) (now : Nat) (ok : Bool),
      approve_command g c args db gw now ok = ⟨db, [], [], false⟩) ∧
    (∀ (args : List String) (db : DB) (now : Nat) (ok : Bool),
      reject_command g c args db now ok = ⟨db, [], [], false⟩) ∧
    (∀ (args : List String) (db : DB), info_command g c args db = ⟨db, [], [], false⟩) ∧
    (∀ db : DB, pending_command g c db = ⟨db, [], [], false⟩) ∧
    (∀ db : DB, stats_command g c db = ⟨db, [], [], false⟩) := by
  have hb : (c != g) = true := bne_iff_ne.mpr hne
  refine ⟨?_, ?_, ?_, ?_, ?_⟩
  · intro args db gw now ok
    unfold approve_command
    rw [if_pos hb]
  · intro args db now ok
    unfold reject_command
    rw [if_pos hb]
  · intro args db
    unfold info_command
    rw [if_pos hb]
  · intro db
    unfold pending_command
    rw [if_pos hb]
  · intro db
    unfold stats_command
    rw [if_pos hb]

/-- C6 witness: all five handlers evaluated from a non-admin chat. -/
theorem admin_commands_silent_outside_channel_witness :
    (1 : Int) ≠ 2 ∧
    approve_command 2 1 ["1"] pDB ⟨true, none, none⟩ 9 true = ⟨pDB, [], [], false⟩ ∧
    reject_command 2 1 ["1"] pDB 9 true = ⟨pDB, [], [], false⟩ ∧
    info_command 2 1 ["1"] pDB = ⟨pDB, [], [], false⟩ ∧
    pending_command 2 1 pDB = ⟨pDB, [], [], false⟩ ∧
    stats_command 2 1 pDB = ⟨pDB, [], [], false⟩ := by
  have h := admin_commands_silent_outside_channel 2 1 (by decide)
  exact ⟨by decide, h.1 ["1"] pDB ⟨true, none, none⟩ 9 true, h.2.1 ["1"] pDB 9 true,
    h.2.2.1 ["1"] pDB, h.2.2.2.1 pDB, h.2.2.2.2 pDB⟩

/-! ## Claim C1 — approve is gated by the unban gateway -/

theorem update_success_of_get (db : DB) (i : Int) (a : Appeal) (s d : String)
    (now : Nat) (h : get_appeal db i = some a) :
    (update_appeal_status db i s d now).1 = true := by
  unfold get_appeal at h
  unfold update_appeal_status
  dsimp only
  rw [decide_eq_true_eq, List.countP_pos_iff]
  have hp := List.find?_some h
  exact ⟨a, List.mem_of_find?_eq_some h, hp⟩

/-- C1: for an `/approve` of an existing pending appeal issued in the admin
channel, the gateway is always consulted; on gateway failure the store is
left untouched, the submitter gets nothing, and the admin is shown the
gateway's failure description; on gateway success the appeal is atomically
transitioned to `approved`, the admin gets the success reply, and the
submitter is notified. -/
theorem approve_gateway_guards_transition (g : Int) (arg0 : String)
    (rest : List String) (db : DB) (gw : UnbanOutcome) (now : Nat) (ok : Bool)
    (i : Int) (a : Appeal)
    (hparse : py_int arg0.data = some i)
    (hget : get_appeal db i = some a)
    (hpending : a.status = "pending") :
    (approve_command g g (arg0 :: rest) db gw now ok).gatewayCalled = true ∧
    (gw.ok = false →
      (approve_command g g (arg0 :: rest) db gw now ok).db = db ∧
      (approve_command g g (arg0 :: rest) db gw now ok).userMessages = [] ∧
      (approve_command g g (arg0 :: rest) db gw now ok).replies =
        ["❌ Failed to unban user. Error: " ++ gw.description.getD "Unknown error"]) ∧
    (gw.ok = true →
      (approve_command g g (arg0 :: rest) db gw now ok).db =
        (update_appeal_status db i "approved" "Одобрена" now).2 ∧
      (approve_command g g (arg0 :: rest) db gw now ok).replies =
        ["✅ Апелляция #" ++ toString i ++ " одобрена. Пользователь " ++
          pyOptStr a.first_name ++ " разблокирован."] ∧
      (ok = true → ∃ msg, (approve_command g g (arg0 :: rest) db gw now ok).userMessages =
        [(a.user_id, msg)])) := by
  have hguard : (g != g) = false := bne_self_eq_false g
  have hpend : (a.status != "pending") = false := by
    rw [hpending]
    exact bne_self_eq_false _
  have hupd := update_success_of_get db i a "approved" "Одобрена" now hget
  have key : approve_command g g (arg0 :: rest) db gw now ok =
      if gw.ok then
        ⟨(update_appeal_status db i "approved" "Одобрена" now).2,
         ["✅ Апелляция #" ++ toString i ++ " одобрена. Пользователь " ++
           pyOptStr a.first_name ++ " разблокирован."],
         (notify_user_decision a "approved" "Одобрена" ok).1, true⟩
      else
        ⟨db, ["❌ Failed to unban user. Error: " ++ gw.description.getD "Unknown error"],
         [], true⟩ := by
    unfold approve_command
    cases hgw : gw.ok
    · simp [hguard, hparse, hget, hpend, hgw]
    · simp only [hguard, Bool.false_eq_true, if_false, hparse, hget, hpend, hgw,
        if_true]
      rw [if_pos hupd]
  rw [key]
  cases hgw : gw.ok
  · rw [if_neg (by simp)]
    refine ⟨rfl, fun _ => ⟨rfl, rfl, rfl⟩, fun hh => absurd hh (by decide)⟩
  · rw [if_pos rfl]
    refine ⟨rfl, fun hh => absurd hh (by decide), fun _ => ⟨rfl, rfl, ?_⟩⟩
    intro hok
    subst hok
    exact ⟨_, rfl⟩

/-- C1 witness: a pending appeal approved with a failing gateway call. -/
theorem approve_gateway_guards_transition_witness :
    py_int "1".data = some 1 ∧ get_appeal pDB 1 = some pAp ∧ pAp.status = "pending" ∧
    (approve_command 2 2 ["1"] pDB ⟨false, some "boom", none⟩ 9 true).db = pDB ∧
    (approve_command 2 2 ["1"] pDB ⟨false, some "boom", none⟩ 9 true).userMessages = [] ∧
    (approve_command 2 2 ["1"] pDB ⟨false, some "boom", none⟩ 9 true).replies =
      ["❌ Failed to unban user. Error: boom"] := by
  have h := approve_gateway_guards_transition 2 "1" [] pDB ⟨false, some "boom", none⟩ 9
    true 1 pAp (by decide) (by decide) (by decide)
  have hf := h.2.1 rfl
  exact ⟨by decide, by decide, by decide, hf.1, hf.2.1, hf.2.2⟩

/-! ## Claim C10 — notification delivery failure is swallowed -/

/-- C10: whether the decision notification reaches the submitter has no
effect on the store state or on the replies the admin sees (for both
`/approve` and `/reject`), and `_notify_user_decision` never lets an
exception escape. -/
theorem notify_failure_swallowed :
    (∀ (g c : Int) (args : List String) (db : DB) (gw : UnbanOutcome) (now : Nat)
      (ok : Bool),
      (approve_command g c args db gw now ok).db = (approve_command g c args db gw now true).db ∧
      (approve_command g c args db gw now ok).replies =
        (approve_command g c args db gw now true).replies) ∧
    (∀ (g c : Int) (args : List String) (db : DB) (now : Nat) (ok : Bool),
      (reject_command g c args db now ok).db = (reject_command g c args db now true).db ∧
      (reject_command g c args db now ok).replies =
        (reject_command g c args db now true).replies) ∧
    (∀ (ap : Appeal) (decision admin_decision : String) (ok : Bool),
      (notify_user_decision ap decision admin_decision ok).2 = none) := by
  refine ⟨?_, ?_, ?_⟩
  · intro g c args db gw now ok
    constructor <;>
    · unfold approve_command
      repeat'
        first
        | rfl
        | dsimp only
        | split
  · intro g c args db now ok
    constructor <;>
    · unfold reject_command
      repeat'
        first
        | rfl
        | dsimp only
        | split
  · intro ap decision admin_decision ok
    unfold notify_user_decision
    cases ok <;> rfl

/-! ## Claim C3 — one pending appeal per user -/

/-- C3: every store reachable by the application keeps at most one pending
row per user; a submission by a user who already has a pending appeal is
rejected with the pending-appeal message, leaving the store untouched; and
a submission mutates the store only when the text validates, the user is
banned and the user has no pending appeal. -/
theorem one_pending_appeal_per_user :
    (∀ db : DB, Reachable db → pendingUnique db) ∧
    (∀ (u : UserInfo) (text : PyStr) (member : Except String String) (db : DB)
      (now : Nat) (ex : Appeal),
      (validate_appeal_text text).1 = true → member = Except.ok "kicked" →
      get_pending_appeal db u.id = some ex →
      (handle_appeal_submission u text member db now).db = db ∧
      (handle_appeal_submission u text member db now).replies =
        ["⏳ У вас уже есть незавершенная апелляция (#" ++ toString ex.id ++
          "). Пожалуйста, дождитесь рассмотрения администратором."] ∧
      (handle_appeal_submission u text member db now).adminNotices = []) ∧
    (∀ (u : UserInfo) (text : PyStr) (member : Except String String) (db : DB)
      (now : Nat),
      (handle_appeal_submission u text member db now).db ≠ db →
      (validate_appeal_text text).1 = true ∧ member = Except.ok "kicked" ∧
      get_pending_appeal db u.id = none) := by
  refine ⟨fun db h => reachable_pendingUnique h, ?_, ?_⟩
  · intro u text member db now ex hv hm hp
    cases hval : validate_appeal_text text with
    | mk b msg =>
      rw [hval] at hv
      dsimp only at hv
      subst hv
      subst hm
      unfold handle_appeal_submission
      rw [hval]
      simp only [bne_self_eq_false, Bool.false_eq_true, if_false, hp]
      exact ⟨trivial, trivial, trivial⟩
  · intro u text member db now hne
    unfold handle_appeal_submission at hne
    split at hne
    · exact absurd rfl hne
    · next b msg hval =>
      split at hne
      · exact absurd rfl hne
      · next st =>
        split at hne
        · exact absurd rfl hne
        · next hst =>
          split at hne
          · exact absurd rfl hne
          · next hnone =>
            have hkick : st = "kicked" := by
              simpa using hst
            subst hkick
            exact ⟨by rw [hval], rfl, hnone⟩

/-- C3 witness: the invariant on the fresh store, and a second submission
by user 7 (who has the pending appeal `pAp` in `pDB`) leaving the store
unchanged. -/
theorem one_pending_appeal_per_user_witness :
    pendingUnique DB.empty ∧
    (handle_appeal_submission wUser wText (Except.ok "kicked") pDB 9).db = pDB := by
  constructor
  · exact one_pending_appeal_per_user.1 DB.empty Reachable.empty
  · exact (one_pending_appeal_per_user.2.1 wUser wText (Except.ok "kicked") pDB 9 pAp
      (by decide) rfl (by decide)).1

end AppealsBot
